import Mathlib

/-!
Verification of the BHRRC scraper's document-text resolver
(`src/bhrrc_scraper.py`).

The development shallowly embeds the scraper's pure logic:

* an HTML page is represented by its parsed element tree (`Node`); the raw
  markup string that the Python code also scans with a regular expression is
  recovered as the canonical rendering of that tree (`render`);
* the external collaborators (HTTP fetch of the PDF bytes, the two text-layer
  extractors, the OCR engine, the browser fetches) are represented by records
  of their observable outcomes (`PdfFetchWorld`, `ScrapeWorld`);
* Python exceptions are modelled with `Except`: a function that can let an
  exception escape returns `Except PyErr _`.

Note that the file `bhrrc_scraper.py` defines `find_first_pdf_url` twice; the
second definition (lines 59-69) shadows the first, so only the second is
embedded here.
-/

/-! ## Python-style string primitives -/

/-- Whitespace per Python `str.strip` and the regex class `\s`
(space, tab, newline, carriage return, vertical tab, form feed). -/
def isPyWs (c : Char) : Bool :=
  c = ' ' || c = '\t' || c = '\n' || c = '\r' || c = '\x0b' || c = '\x0c'

/-- Python `str.strip()`: drop leading and trailing whitespace. -/
def pyStrip (s : String) : String :=
  String.mk (((s.data.dropWhile isPyWs).reverse.dropWhile isPyWs).reverse)

/-- Exact prefix test on character lists. -/
def isPrefixChars : List Char → List Char → Bool
  | [], _ => true
  | _ :: _, [] => false
  | p :: ps, c :: cs => p = c && isPrefixChars ps cs

/-- Case-insensitive prefix test on character lists. -/
def ciPrefixOf : List Char → List Char → Bool
  | [], _ => true
  | _ :: _, [] => false
  | p :: ps, c :: cs => p.toLower = c.toLower && ciPrefixOf ps cs

/-- Exact substring test on character lists. -/
def hasSub (pat : List Char) : List Char → Bool
  | [] => isPrefixChars pat []
  | c :: cs => isPrefixChars pat (c :: cs) || hasSub pat cs

/-- Case-insensitive substring test on character lists; `pat in s.lower()`
for an ASCII lower-case `pat`. -/
def hasSubCI (pat : List Char) : List Char → Bool
  | [] => ciPrefixOf pat []
  | c :: cs => ciPrefixOf pat (c :: cs) || hasSubCI pat cs

/-- Python `".pdf" in h.lower()` (line 62 / line 67 of the scraper). -/
def containsPdfCI (s : String) : Bool :=
  hasSubCI (".pdf".data) s.data

/-- Case-insensitive test that `s` ends with `pat`. -/
def endsWithCI (s pat : String) : Bool :=
  ciPrefixOf pat.data.reverse s.data.reverse

/-- Case-insensitive strip of a literal pattern from the front of a
character list, returning the remainder on success. -/
def stripCIList : List Char → List Char → Option (List Char)
  | [], cs => some cs
  | _ :: _, [] => none
  | p :: ps, c :: cs => if p.toLower = c.toLower then stripCIList ps cs else none

/-! ## Model of `urllib.parse.urljoin`

The scraper resolves discovered hrefs against the page URL with
`urllib.parse.urljoin`, an external standard-library collaborator.  The model
below covers the URL shapes the scraper exercises: an absolute URL is returned
unchanged, a root-relative path is resolved against the scheme and host of the
base, any other relative path against the base directory, and an empty
reference yields the base. -/

/-- Splits a character list at the first occurrence of `pat`, returning the
part before it and the part after it. -/
def splitAtSub (pat : List Char) : List Char → Option (List Char × List Char)
  | [] => if pat.isEmpty then some ([], []) else none
  | c :: cs =>
    if isPrefixChars pat (c :: cs) then some ([], (c :: cs).drop pat.length)
    else
      match splitAtSub pat cs with
      | some (pre, post) => some (c :: pre, post)
      | none => none

/-- Scheme-plus-host part of an absolute URL (everything up to the first
slash after the scheme separator). -/
def urlHost (base : String) : String :=
  match splitAtSub ("://".data) base.data with
  | some (pre, post) =>
    String.mk (pre ++ ("://".data) ++ post.takeWhile (fun c => c ≠ '/'))
  | none => ""

/-- Base directory of a URL: everything up to and including the last slash. -/
def urlDir (base : String) : String :=
  String.mk ((base.data.reverse.dropWhile (fun c => c ≠ '/')).reverse)

/-- Models `urllib.parse.urljoin base u` for the cases the scraper produces. -/
def urljoin (base u : String) : String :=
  if u = "" then base
  else if hasSub ("://".data) u.data then u
  else if isPrefixChars ("/".data) u.data then urlHost base ++ u
  else urlDir base ++ u

/-! ## The parsed HTML page -/

/-- A parsed HTML node: the scraper's view of a page through BeautifulSoup.
An element carries its tag name, its attributes, and its children in document
order; a `text` node is a `NavigableString`. -/
inductive Node where
  | text (s : String)
  | element (tag : String) (attrs : List (String × String)) (children : List Node)

/-- Attribute lookup, `tag.get(name)`. -/
def attrOf (n : Node) (name : String) : Option String :=
  match n with
  | .text _ => none
  | .element _ attrs _ => attrs.lookup name

/-- True when the node is an element with the given tag name. -/
def isTagged (tag : String) (n : Node) : Bool :=
  match n with
  | .text _ => false
  | .element t _ _ => t = tag

mutual
/-- All nodes of the subtree in document (pre-)order, the node itself first. -/
def flatten : Node → List Node
  | .text s => [.text s]
  | .element t a cs => .element t a cs :: flattenL cs
/-- Document-order flattening of a forest. -/
def flattenL : List Node → List Node
  | [] => []
  | n :: rest => flatten n ++ flattenL rest
end

mutual
/-- All `NavigableString` contents of the subtree, in document order. -/
def stringsOf : Node → List String
  | .text s => [s]
  | .element _ _ cs => stringsOfL cs
/-- Document-order strings of a forest. -/
def stringsOfL : List Node → List String
  | [] => []
  | n :: rest => stringsOf n ++ stringsOfL rest
end

/-- BeautifulSoup `get_text(sep, strip=True)`: each string stripped, empty
strings dropped, the rest joined with the separator. -/
def getTextSep (sep : String) (n : Node) : String :=
  String.intercalate sep (((stringsOf n).map pyStrip).filter (fun s => s ≠ ""))

/-- Descendants of a node (excluding the node itself), in document order;
the search space of `tag.find_all(..., recursive=True)`. -/
def descendantsOf (n : Node) : List Node :=
  match n with
  | .text _ => []
  | .element _ _ cs => flattenL cs

/-- Rendering of an attribute list. -/
def renderAttrs : List (String × String) → String
  | [] => ""
  | (k, v) :: rest => " " ++ k ++ "=\"" ++ v ++ "\"" ++ renderAttrs rest

mutual
/-- Canonical rendering of a node back to markup; stands for the raw HTML
string the Python code also receives and scans with a regex. -/
def render : Node → String
  | .text s => s
  | .element t a cs =>
    "<" ++ t ++ renderAttrs a ++ ">" ++ renderL cs ++ "</" ++ t ++ ">"
/-- Rendering of a forest. -/
def renderL : List Node → String
  | [] => ""
  | n :: rest => render n ++ renderL rest
end

/-- BeautifulSoup `tag.string`: the sole string of a chain of single
children, if any. -/
def nodeString : Node → Option String
  | .text s => some s
  | .element _ _ [c] => nodeString c
  | .element _ _ _ => none

/-! ## Model of `json.loads`

Line 63 of the scraper parses the embedded page-data script with the standard
library's `json.loads`.  The model keeps a JSON number as its raw literal text
(the scraper never computes with numbers; only the dynamic type of a value
matters). -/

/-- A parsed JSON value. -/
inductive Json where
  | jnull
  | jbool (b : Bool)
  | jnum (raw : String)
  | jstr (s : String)
  | jarr (elems : List Json)
  | jobj (fields : List (String × Json))

/-- JSON insignificant whitespace. -/
def isJsonWs (c : Char) : Bool :=
  c = ' ' || c = '\t' || c = '\n' || c = '\r'

/-- Translates a JSON escape character to the character it denotes. -/
def unescapeChar (c : Char) : Char :=
  if c = 'b' then '\x08'
  else if c = 'f' then '\x0c'
  else if c = 'n' then '\n'
  else if c = 'r' then '\r'
  else if c = 't' then '\t'
  else c

/-- Value of a hexadecimal digit, if it is one. -/
def hexVal (c : Char) : Option Nat :=
  if '0' ≤ c && c ≤ '9' then some (c.toNat - 48)
  else if 'a' ≤ c && c ≤ 'f' then some (c.toNat - 87)
  else if 'A' ≤ c && c ≤ 'F' then some (c.toNat - 55)
  else none

/-- Body of a JSON string literal, after the opening quote; yields the decoded
string and the remainder after the closing quote. -/
def parseStringBody : List Char → Except Unit (String × List Char)
  | [] => .error ()
  | c :: cs =>
    if c = '"' then .ok ("", cs)
    else if c = '\\' then
      match cs with
      | [] => .error ()
      | e :: cs2 =>
        if e = 'u' then
          match cs2 with
          | h1 :: h2 :: h3 :: h4 :: cs3 =>
            match hexVal h1, hexVal h2, hexVal h3, hexVal h4 with
            | some a, some b, some c3, some d =>
              match parseStringBody cs3 with
              | .ok (s, rest) =>
                .ok (String.mk (Char.ofNat (((a * 16 + b) * 16 + c3) * 16 + d) :: s.data), rest)
              | .error _ => .error ()
            | _, _, _, _ => .error ()
          | _ => .error ()
        else
          match parseStringBody cs2 with
          | .ok (s, rest) => .ok (String.mk (unescapeChar e :: s.data), rest)
          | .error _ => .error ()
    else
      match parseStringBody cs with
      | .ok (s, rest) => .ok (String.mk (c :: s.data), rest)
      | .error _ => .error ()

/-- Characters that may occur in a JSON number literal. -/
def isNumChar (c : Char) : Bool :=
  c.isDigit || c = '-' || c = '+' || c = '.' || c = 'e' || c = 'E'

/-- A JSON number literal, kept as raw text. -/
def parseNumber (cs : List Char) : Except Unit (String × List Char) :=
  let raw := cs.takeWhile isNumChar
  if raw.any Char.isDigit then .ok (String.mk raw, cs.drop raw.length)
  else .error ()

mutual
/-- Recursive-descent JSON value; the fuel argument bounds the recursion
depth and is instantiated with the input length, which suffices. -/
def parseValue : Nat → List Char → Except Unit (Json × List Char)
  | 0, _ => .error ()
  | fuel + 1, cs0 =>
    match cs0.dropWhile isJsonWs with
    | [] => .error ()
    | c :: cs =>
      if c = 'n' then
        match stripCIList ("ull".data) cs with
        | some rest => .ok (.jnull, rest)
        | none => .error ()
      else if c = 't' then
        match stripCIList ("rue".data) cs with
        | some rest => .ok (.jbool true, rest)
        | none => .error ()
      else if c = 'f' then
        match stripCIList ("alse".data) cs with
        | some rest => .ok (.jbool false, rest)
        | none => .error ()
      else if c = '"' then
        match parseStringBody cs with
        | .ok (s, rest) => .ok (.jstr s, rest)
        | .error _ => .error ()
      else if c = '[' then
        match (cs.dropWhile isJsonWs) with
        | ']' :: rest => .ok (.jarr [], rest)
        | _ =>
          match parseElems fuel cs with
          | .ok (es, rest) => .ok (.jarr es, rest)
          | .error _ => .error ()
      else if c = '\x7b' then
        match (cs.dropWhile isJsonWs) with
        | '\x7d' :: rest => .ok (.jobj [], rest)
        | _ =>
          match parseFields fuel cs with
          | .ok (fs, rest) => .ok (.jobj fs, rest)
          | .error _ => .error ()
      else
        match parseNumber (c :: cs) with
        | .ok (raw, rest) => .ok (.jnum raw, rest)
        | .error _ => .error ()

/-- One or more comma-separated array elements followed by the closing
bracket. -/
def parseElems : Nat → List Char → Except Unit (List Json × List Char)
  | 0, _ => .error ()
  | fuel + 1, cs =>
    match parseValue fuel cs with
    | .ok (v, rest) =>
      match rest.dropWhile isJsonWs with
      | ',' :: rest2 =>
        match parseElems fuel rest2 with
        | .ok (vs, rest3) => .ok (v :: vs, rest3)
        | .error _ => .error ()
      | ']' :: rest2 => .ok ([v], rest2)
      | _ => .error ()
    | .error _ => .error ()

/-- One or more comma-separated object members followed by the closing
brace. -/
def parseFields : Nat → List Char → Except Unit (List (String × Json) × List Char)
  | 0, _ => .error ()
  | fuel + 1, cs =>
    match cs.dropWhile isJsonWs with
    | '"' :: cs2 =>
      match parseStringBody cs2 with
      | .ok (k, rest) =>
        match rest.dropWhile isJsonWs with
        | ':' :: rest2 =>
          match parseValue fuel rest2 with
          | .ok (v, rest3) =>
            match rest3.dropWhile isJsonWs with
            | ',' :: rest4 =>
              match parseFields fuel rest4 with
              | .ok (fs, rest5) => .ok ((k, v) :: fs, rest5)
              | .error _ => .error ()
            | '\x7d' :: rest4 => .ok ([(k, v)], rest4)
            | _ => .error ()
          | .error _ => .error ()
        | _ => .error ()
      | .error _ => .error ()
    | _ => .error ()
end

/-- Model of `json.loads`: parse one value and reject trailing input. -/
def jsonParse (s : String) : Except Unit Json :=
  match parseValue (s.data.length + 1) s.data with
  | .ok (v, rest) => if (rest.dropWhile isJsonWs).isEmpty then .ok v else .error ()
  | .error _ => .error ()

/-- Lookup in a parsed JSON object; `json.loads` builds a Python dict in
which a duplicated key keeps its last occurrence. -/
def jlookup (fields : List (String × Json)) (k : String) : Option Json :=
  fields.reverse.lookup k

/-! ## The regex fallback of attachment discovery

Line 68 of the scraper searches the raw markup for
`"(?:source|url|downloadUrl|download_url|pdf)"\s*:\s*"([^"]+?\.pdf[^"]*)"`
with `re.I`.  The functions below implement exactly this search: the leftmost
position at which the pattern matches wins, and the captured group is the
whole quoted value (the lazy `[^"]+?` and the greedy `[^"]*` both stay inside
the quoted region, so a match captures everything up to the closing quote,
provided `.pdf` occurs at offset at least one inside it). -/

/-- Alternation keys of the raw-markup regex, in the pattern's order. -/
def regexKeyList : List String :=
  ["source", "url", "downloadUrl", "download_url", "pdf"]

/-- Tries the alternation: case-insensitively strip one of the keys and
its closing quote.  No key is a prefix of another, so at most one
alternative can match and trying them in order loses nothing. -/
def tryKeys : List String → List Char → Option (List Char)
  | [], _ => none
  | k :: ks, cs =>
    match stripCIList k.data cs with
    | some (dq :: rest) => if dq = '"' then some rest else tryKeys ks cs
    | some [] => tryKeys ks cs
    | none => tryKeys ks cs

/-- Attempts the whole pattern at one start position; returns the captured
group on success. -/
def regexTryAt (cs0 : List Char) : Option String :=
  match cs0 with
  | '"' :: rest =>
    match tryKeys regexKeyList rest with
    | none => none
    | some r2 =>
      match r2.dropWhile isPyWs with
      | ':' :: r4 =>
        match r4.dropWhile isPyWs with
        | '"' :: r6 =>
          let value := r6.takeWhile (fun c => c ≠ '"')
          match r6.dropWhile (fun c => c ≠ '"') with
          | '"' :: _ =>
            match value with
            | [] => none
            | _ :: vtail =>
              if hasSubCI (".pdf".data) vtail then some (String.mk value)
              else none
          | _ => none
        | _ => none
      | _ => none
  | _ => none

/-- Leftmost match of the raw-markup regex, as `re.search` finds it. -/
def regexSearchPdf : List Char → Option String
  | [] => none
  | c :: rest =>
    match regexTryAt (c :: rest) with
    | some v => some v
    | none => regexSearchPdf rest

/-! ## `find_first_pdf_url` (the effective definition, lines 59-69) -/

/-- A Python exception escaping one of the embedded functions. -/
inductive PyErr where
  /-- Transport failure: `requests` raised a non-success HTTP status or a
  timeout. -/
  | httpError
  /-- Attribute access (such as `.get`) on an object without it raised an
  `AttributeError`. -/
  | attrError
  /-- Calling a string method on a non-string raised. -/
  | typeError
  /-- The uncaught OCR stage raised (`convert_from_bytes` or
  `pytesseract.image_to_string`). -/
  | ocrError
deriving DecidableEq

/-- Decidable equality for exception-carrying results, so that concrete
runs can be checked with `decide`. -/
instance (priority := low) {ε α : Type} [DecidableEq ε] [DecidableEq α] :
    DecidableEq (Except ε α) := fun a b =>
  match a, b with
  | .error e1, .error e2 =>
    if h : e1 = e2 then .isTrue (by rw [h]) else .isFalse (by intro hh; cases hh; exact h rfl)
  | .ok v1, .ok v2 =>
    if h : v1 = v2 then .isTrue (by rw [h]) else .isFalse (by intro hh; cases hh; exact h rfl)
  | .error _, .ok _ => .isFalse (by intro hh; cases hh)
  | .ok _, .error _ => .isFalse (by intro hh; cases hh)

/-- True for the elements scanned by `soup.select("a[href],link[href]")`. -/
def isHrefTarget (n : Node) : Bool :=
  match n with
  | .text _ => false
  | .element t attrs _ => (t = "a" || t = "link") && (attrs.lookup ("href")).isSome

/-- Stripped hrefs of all anchor and link elements, in document order
(line 61 of the scraper). -/
def hrefsOf (page : Node) : List String :=
  ((flatten page).filter isHrefTarget).map (fun n => pyStrip ((attrOf n ("href")).getD ("")))

/-- First stripped href whose lower-casing contains `.pdf` (line 62). -/
def scanHrefs (page : Node) : Option String :=
  (hrefsOf page).find? (fun h => containsPdfCI h)

/-- First element matching `soup.find("script", id="pageAsDataJSON",
type="application/json")`. -/
def findPageScript (page : Node) : Option Node :=
  (flatten page).find? (fun n =>
    isTagged ("script") n
      && attrOf n ("id") = some ("pageAsDataJSON")
      && attrOf n ("type") = some ("application/json"))

/-- The dict `d` of lines 63-64: the parsed page-data JSON, or the empty
dict when the script element is missing (the `AttributeError` from
`None.string` is swallowed by the bare `except`), when the script has no
`.string` (replaced by the literal text `\x7b\x7d`), or when parsing
fails. -/
def effectiveJson (page : Node) : Json :=
  match findPageScript page with
  | none => .jobj []
  | some sc =>
    match jsonParse ((nodeString sc).getD ("\x7b\x7d")) with
    | .ok v => v
    | .error _ => .jobj []

/-- Keys probed on the page-data dict, in the order of line 65. -/
def probeKeyList : List String :=
  ["source", "downloadUrl", "download_url", "pdf", "url", "file"]

/-- The loop of lines 65-67 over one list of keys: `v = d.get(k, "")`
on a non-string `v` raises when `.lower()` is called; a missing key
yields the empty string, which never contains `.pdf`. -/
def probeList (o : List (String × Json)) : List String → Except PyErr (Option String)
  | [] => .ok none
  | k :: ks =>
    match jlookup o k with
    | none => probeList o ks
    | some (.jstr s) => if containsPdfCI s then .ok (some s) else probeList o ks
    | some _ => .error .typeError

/-- Lines 65-67 applied to the parsed page data: `d.get` on a non-dict
raises `AttributeError`. -/
def probeKeys (d : Json) : Except PyErr (Option String) :=
  match d with
  | .jobj o => probeList o probeKeyList
  | _ => .error .attrError

/-- The effective `find_first_pdf_url` (lines 59-69): the anchor/link scan,
then the page-data JSON keys, then the raw-markup regex; any discovered
reference is resolved against the base URL.  An uncaught Python exception is
an `Except.error`. -/
def find_first_pdf_url (page : Node) (base : String) : Except PyErr (Option String) :=
  match scanHrefs page with
  | some h => .ok (some (urljoin base h))
  | none =>
    match probeKeys (effectiveJson page) with
    | .error e => .error e
    | .ok (some v) => .ok (some (urljoin base v))
    | .ok none => .ok ((regexSearchPdf (render page).data).map (urljoin base))

/-! ## `download_pdf_text` (lines 71-91)

The PDF bytes themselves and the three extraction engines are external
collaborators; a `PdfFetchWorld` records the outcome each of them would
produce for the one attachment URL the resolver may fetch. -/

/-- Observable outcomes of the external calls made by `download_pdf_text`. -/
structure PdfFetchWorld where
  /-- Whether `SESSION.get` succeeded and `raise_for_status` passed. -/
  httpOk : Bool
  /-- Outcome of `pdf_extract_text(buf) or ""` (line 77): the value, or an
  exception. -/
  pdfminerResult : Except Unit String
  /-- Outcome of the pypdf block (lines 83-84): the list of
  `p.extract_text() or ""` per page, or an exception (including a failing
  import). -/
  pypdfPages : Except Unit (List String)
  /-- Outcome of the OCR stage (lines 90-91): one
  `pytesseract.image_to_string` result per rasterized page, or an
  exception. -/
  ocrPages : Except Unit (List String)

/-- First extraction stage (lines 76-79): pdfminer text, stripped, kept
only when non-empty; an exception is swallowed. -/
def stage1Result (w : PdfFetchWorld) : Option String :=
  match w.pdfminerResult with
  | .ok s => if pyStrip s = "" then none else some (pyStrip s)
  | .error _ => none

/-- Second extraction stage (lines 82-86): pypdf page texts joined with a
newline and stripped, kept only when non-empty; an exception is
swallowed. -/
def stage2Result (w : PdfFetchWorld) : Option String :=
  match w.pypdfPages with
  | .ok ps =>
    if pyStrip (String.intercalate ("\n") ps) = "" then none
    else some (pyStrip (String.intercalate ("\n") ps))
  | .error _ => none

/-- Lines 71-91: fetch the PDF bytes (a transport failure raises), then
pdfminer, then pypdf, then OCR; the OCR stage runs outside any `try` and
its result, the per-page texts joined with a blank line and stripped, is
returned unconditionally. -/
def download_pdf_text (w : PdfFetchWorld) : Except PyErr String :=
  if w.httpOk = false then .error .httpError
  else
    match stage1Result w with
    | some t => .ok t
    | none =>
      match stage2Result w with
      | some t => .ok t
      | none =>
        match w.ocrPages with
        | .ok ps => .ok (pyStrip (String.intercalate ("\n\n") ps))
        | .error _ => .error .ocrError

/-! ## The HTML fallback of the resolver (lines 154-178) -/

/-- The boundary-marker pattern of line 164 applied with `re.I`:
`(This is a response to|Timeline|Latest news|Company Responses)`. -/
def stopSearch (txt : String) : Bool :=
  hasSubCI ("this is a response to".data) txt.data
    || hasSubCI ("timeline".data) txt.data
    || hasSubCI ("latest news".data) txt.data
    || hasSubCI ("company responses".data) txt.data

/-- Whitespace-separated tokens of a class attribute (accumulator holds the
current token reversed). -/
def wsTokensAux (acc : List Char) : List Char → List (List Char)
  | [] => if acc.isEmpty then [] else [acc.reverse]
  | c :: cs =>
    if isPyWs c then
      if acc.isEmpty then wsTokensAux [] cs else acc.reverse :: wsTokensAux [] cs
    else wsTokensAux (c :: acc) cs

/-- True when the element's class attribute contains the given token. -/
def hasClassTok (attrs : List (String × String)) (tok : String) : Bool :=
  (wsTokensAux [] ((attrs.lookup ("class")).getD ("")).data).contains tok.data

/-- True for elements matching the selector `div.block.html-block`. -/
def isHtmlBlock (n : Node) : Bool :=
  match n with
  | .text _ => false
  | .element t attrs _ =>
    t = "div" && hasClassTok attrs ("block") && hasClassTok attrs ("html-block")

/-- Lines 158-159: the text of every `div.block.html-block` container with
non-empty content, in document order. -/
def htmlBlockTexts (page : Node) : List String :=
  (((flatten page).filter isHtmlBlock).filter (fun b => getTextSep ("") b ≠ "")).map
    (getTextSep ("\n"))

mutual
/-- Searches one subtree for an `h1` strictly inside it, returning the later
siblings of the first one found. -/
def findH1In : Node → Option (List Node)
  | .text _ => none
  | .element _ _ cs => findH1TailL cs
/-- Nodes following the first `h1` of a forest in document order: its later
siblings; `none` when there is no `h1`.  This is where `soup.find("h1")`
followed by the `find_next_sibling` / `next_sibling` walk of lines 165-177
iterates. -/
def findH1TailL : List Node → Option (List Node)
  | [] => none
  | n :: rest =>
    if isTagged ("h1") n then some rest
    else
      match findH1In n with
      | some r => some r
      | none => findH1TailL rest
end

/-- Later siblings of the first `h1` of the page, if one exists. -/
def findH1Tail (page : Node) : Option (List Node) :=
  findH1TailL [page]

/-- Non-empty texts of the `p`, `li` and `blockquote` descendants of one
sibling (lines 174-176); a `NavigableString` sibling contributes
nothing. -/
def blockTexts (n : Node) : List String :=
  match n with
  | .text _ => []
  | .element _ _ _ =>
    (((descendantsOf n).filter (fun t =>
        isTagged ("p") t || isTagged ("li") t || isTagged ("blockquote") t)).map
      (getTextSep (" "))).filter (fun s => s ≠ "")

/-- True when the sibling stops the walk (line 173): an element whose own
text is non-empty and matches the boundary-marker pattern. -/
def isStopping (n : Node) : Bool :=
  match n with
  | .text _ => false
  | .element _ _ _ => getTextSep (" ") n ≠ "" && stopSearch (getTextSep (" ") n)

/-- The sibling walk of lines 168-177: skip strings, stop at a
boundary-marker element, otherwise collect the paragraph-like descendant
texts and continue. -/
def collectLoop : List Node → List String
  | [] => []
  | n :: rest => if isStopping n then [] else blockTexts n ++ collectLoop rest

/-- Line 167: every `p` element's text in document order, when the page has
no `h1` at all (joined without dropping empties and without a final
strip). -/
def allParagraphTexts (page : Node) : List String :=
  ((flatten page).filter (fun n => isTagged ("p") n)).map (getTextSep (" "))

/-- The native-HTML fallback of the resolver (lines 154-178): the semantic
`div.block.html-block` containers when any has text, otherwise the
heading-bounded sibling walk, otherwise all paragraphs. -/
def htmlFallback (page : Node) : String :=
  match htmlBlockTexts page with
  | t :: ts => pyStrip (String.intercalate ("\n\n") (t :: ts))
  | [] =>
    match findH1Tail page with
    | none => String.intercalate ("\n\n") (allParagraphTexts page)
    | some rest => pyStrip (String.intercalate ("\n\n") (collectLoop rest))

/-! ## `extract_response_text_preferring_pdf` (lines 140-178) -/

/-- The document-text resolver: discover an attachment URL; if one is found
download and extract it, keeping the PDF-derived text only when non-empty;
otherwise fall back to HTML extraction.  Exceptions escaping
`find_first_pdf_url` or `download_pdf_text` escape the resolver too. -/
def extract_response_text_preferring_pdf (page : Node) (base : String)
    (w : PdfFetchWorld) : Except PyErr String :=
  match find_first_pdf_url page base with
  | .error e => .error e
  | .ok (some _) =>
    match download_pdf_text w with
    | .error e => .error e
    | .ok t => if t = "" then .ok (htmlFallback page) else .ok t
  | .ok none => .ok (htmlFallback page)

/-! ## Story lookup and row enrichment (lines 129-137, 180-185, 193-214) -/

/-- Matches `re.compile(r"This\s+is\s+a\s+response\s+to", re.I)` at one
start position: the literal words separated by one or more whitespace
characters, case-insensitively. -/
def respPhraseAt (cs : List Char) : Bool :=
  (Option.some cs
    |>.bind (stripCIList ("this".data))
    |>.bind (fun r => match r with
      | c :: rest => if isPyWs c then some (rest.dropWhile isPyWs) else none
      | [] => none)
    |>.bind (stripCIList ("is".data))
    |>.bind (fun r => match r with
      | c :: rest => if isPyWs c then some (rest.dropWhile isPyWs) else none
      | [] => none)
    |>.bind (stripCIList ("a".data))
    |>.bind (fun r => match r with
      | c :: rest => if isPyWs c then some (rest.dropWhile isPyWs) else none
      | [] => none)
    |>.bind (stripCIList ("response".data))
    |>.bind (fun r => match r with
      | c :: rest => if isPyWs c then some (rest.dropWhile isPyWs) else none
      | [] => none)
    |>.bind (stripCIList ("to".data))).isSome

/-- Whether the phrase occurs anywhere in the string (`regex.search`). -/
def hasRespPhrase : List Char → Bool
  | [] => respPhraseAt []
  | c :: cs => respPhraseAt (c :: cs) || hasRespPhrase cs

/-- Nodes strictly after the first `NavigableString` matching the
"This is a response to" phrase, in document order; `none` when no string
matches (`soup.find(string=...)` returning `None`). -/
def nodesAfterRespAnchor : List Node → Option (List Node)
  | [] => none
  | n :: rest =>
    match n with
    | .text s => if hasRespPhrase s.data then some rest else nodesAfterRespAnchor rest
    | .element _ _ _ => nodesAfterRespAnchor rest

/-- Lines 129-137: find the "This is a response to" string, take the next
`a` element after it in document order, and resolve its href; a missing
anchor, a missing link, or a falsy href yields `None`. -/
def find_parent_story_url_from_html (response_url : String) (page : Node) :
    Option String :=
  match nodesAfterRespAnchor (flatten page) with
  | none => none
  | some rest =>
    match rest.find? (fun n => isTagged ("a") n) with
    | none => none
    | some link =>
      if (attrOf link ("href")).getD ("") = "" then none
      else some (urljoin response_url ((attrOf link ("href")).getD ("")))

/-- Lines 180-185: the text of the `title` element, or the empty string. -/
def extract_story_text (page : Node) : String :=
  match (flatten page).find? (fun n => isTagged ("title") n) with
  | some t => getTextSep ("") t
  | none => ""

/-! ## `enrich_row_from_url` (lines 193-214) -/

/-- A CSV row as `csv.DictReader` yields it: keys with string values. -/
abbrev Row : Type := List (String × String)

/-- Python dict lookup, `row.get(k)`. -/
def dlookup (d : Row) (k : String) : Option String :=
  match d with
  | [] => none
  | (k2, v) :: rest => if k2 = k then some v else dlookup rest k

/-- Python dict assignment `d[k] = v`: replace the value in place when the
key exists, append otherwise. -/
def dinsert (k v : String) : Row → Row
  | [] => [(k, v)]
  | (k2, v2) :: rest =>
    if k2 = k then (k, v) :: rest else (k2, v2) :: dinsert k v rest

/-- Outcomes of the external browser fetches a single row triggers. -/
structure ScrapeWorld where
  /-- Parsed page at the row's URL. -/
  respPage : Node
  /-- Outcomes of the attachment fetch and extraction for that page. -/
  pdf : PdfFetchWorld
  /-- Parsed page at the discovered story URL, when one is fetched. -/
  storyPage : Node

/-- Lines 193-214: skip a row with a blank URL; otherwise resolve the
response text (exceptions escape), find the parent story URL and its title
text, and return the input row with `story_text` and `response_text` set to
the stripped values. -/
def enrich_row_from_url (row : Row) (url_col : String) (w : ScrapeWorld) :
    Except PyErr (Option Row) :=
  if pyStrip ((dlookup row url_col).getD ("")) = "" then .ok none
  else
    match extract_response_text_preferring_pdf w.respPage
        (pyStrip ((dlookup row url_col).getD (""))) w.pdf with
    | .error e => .error e
    | .ok response_text =>
      let story_text :=
        match find_parent_story_url_from_html
            (pyStrip ((dlookup row url_col).getD (""))) w.respPage with
        | some _ => extract_story_text w.storyPage
        | none => ""
      .ok (some (dinsert ("response_text") (pyStrip response_text)
        (dinsert ("story_text") (pyStrip story_text) row)))

/-! ## Concrete fixtures

Small concrete pages, worlds and rows used by counterexamples and
witnesses. -/

/-- Base URL used by the concrete runs. -/
def baseHost : String := "https://host/"

/-- A page with no attachment, no semantic container: a heading, one
sibling with a paragraph, a Timeline boundary marker, and a sibling after
the marker. -/
def pgMarker : Node :=
  .element ("html") [] [
    .element ("h1") [] [.text ("Title")],
    .element ("div") [] [.element ("p") [] [.text ("Para one")]],
    .element ("div") [] [.text ("Timeline")],
    .element ("div") [] [.element ("p") [] [.text ("After")]]]

/-- A page with a PDF attachment link and a semantic html-block container. -/
def pgPdfHtml : Node :=
  .element ("html") [] [.element ("body") [] [
    .element ("a") [("href", "scan.pdf")] [.text ("Download attachment")],
    .element ("div") [("class", "block html-block")] [.text ("Fallback html text")]]]

/-- A page whose generic `.pdf` anchor precedes a "Download attachment"
button anchor in document order. -/
def pgTwoAnchors : Node :=
  .element ("html") [] [.element ("body") [] [
    .element ("a") [("href", "a.pdf")] [.text ("report")],
    .element ("a") [("class", "button"), ("href", "b.pdf")] [.text ("Download attachment")]]]

/-- A page whose only anchor has `.pdf` in the middle of the href, with a
query suffix after it: the path does not end in `.pdf`. -/
def pgQueryPdf : Node :=
  .element ("html") [] [.element ("body") [] [
    .element ("a") [("href", "doc.pdf?download=1")] [.text ("file")]]]

/-- A page whose embedded page-data script holds valid JSON that is not an
object. -/
def pgBadJson : Node :=
  .element ("html") [] [
    .element ("head") [] [.element ("script")
      [("id", "pageAsDataJSON"), ("type", "application/json")] [.text ("0")]],
    .element ("body") [] []]

/-- A response page containing the "This is a response to" phrase followed
by a story link. -/
def pgStory : Node :=
  .element ("html") [] [.element ("body") [] [
    .element ("div") [] [.text ("This is a response to the following story:")],
    .element ("a") [("href", "/en/story-1")] [.text ("Story")]]]

/-- A story page with a title element. -/
def pgTitle : Node :=
  .element ("html") [] [.element ("head") [] [.element ("title") [] [.text ("  A story  ")]]]

/-- A fetch world in which both text-layer extractors find nothing and OCR
runs but produces only an empty page. -/
def wdOcrEmpty : PdfFetchWorld := ⟨true, .ok (""), .ok [], .ok [""]⟩

/-- A fetch world in which the HTTP download of the attachment fails. -/
def wdHttpFail : PdfFetchWorld := ⟨false, .ok (""), .ok [], .ok []⟩

/-- A fetch world in which every extraction engine raises. -/
def wdAllErr : PdfFetchWorld := ⟨true, .error (), .error (), .error ()⟩

/-- A fetch world in which both text-layer extractors raise and OCR
produces text. -/
def wdOcrText : PdfFetchWorld := ⟨true, .error (), .error (), .ok ["page one", "page two"]⟩

/-- A fetch world in which everything succeeds with empty results. -/
def wdPlain : PdfFetchWorld := ⟨true, .ok (""), .ok [], .ok []⟩

/-- A scrape world for one row: response page with a story link, empty-OCR
attachment world, story page with a title. -/
def wdRow : ScrapeWorld := ⟨pgStory, wdOcrEmpty, pgTitle⟩

/-- A CSV row with a URL and one metadata column. -/
def rowOne : Row := [("URL", " https://host/x/y "), ("company", "ACME")]

/-- A page whose body holds a generic anchor with href `h1` followed by a
"Download attachment" button anchor with href `h2`. -/
def twoAnchorPage (h1 h2 : String) : Node :=
  .element ("html") [] [.element ("body") [] [
    .element ("a") [("href", h1)] [.text ("report")],
    .element ("a") [("class", "button"), ("href", h2)] [.text ("Download attachment")]]]

/-- True when each of the given keys is absent from the object or mapped to
a JSON string. -/
def stringValuedAt (o : List (String × Json)) : List String → Bool
  | [] => true
  | k :: ks =>
    (match jlookup o k with
     | none => true
     | some (.jstr _) => true
     | some _ => false) && stringValuedAt o ks

/-- True when the effective page-data value is a JSON object whose probed
keys, where present, hold strings — the condition under which the key-probing
loop of lines 65-67 cannot raise. -/
def probedKeysAllStrings (d : Json) : Bool :=
  match d with
  | .jobj o => stringValuedAt o probeKeyList
  | _ => false

/-! ## Helper lemmas -/

/-- A `find?` skips a prefix on which the predicate is false. -/
theorem find?_append_of_false {α : Type} (p : α → Bool) (pre l : List α)
    (h : ∀ x ∈ pre, p x = false) :
    List.find? p (pre ++ l) = List.find? p l := by
  induction pre with
  | nil => rfl
  | cons a pre ih =>
    simp only [List.cons_append, List.find?]
    rw [h a (by simp)]
    exact ih (fun x hx => h x (by simp [hx]))

/-- The href scan returns the first `.pdf`-containing href. -/
theorem scanHrefs_eq_some (page : Node) (pre post : List String) (h : String)
    (hsplit : hrefsOf page = pre ++ h :: post)
    (hpre : ∀ h2 ∈ pre, containsPdfCI h2 = false)
    (hh : containsPdfCI h = true) :
    scanHrefs page = some h := by
  unfold scanHrefs
  rw [hsplit, find?_append_of_false _ _ _ hpre]
  simp [List.find?, hh]

/-- When the href scan succeeds, discovery returns its result resolved
against the base URL, and the later fallbacks never run. -/
theorem find_first_pdf_url_of_scan (page : Node) (base : String) (h : String)
    (hs : scanHrefs page = some h) :
    find_first_pdf_url page base = .ok (some (urljoin base h)) := by
  unfold find_first_pdf_url
  rw [hs]

/-- A stopping-free prefix of the sibling walk contributes exactly its
paragraph-like descendant texts, in order. -/
theorem collectLoop_append (pre rest : List Node)
    (h : ∀ n ∈ pre, isStopping n = false) :
    collectLoop (pre ++ rest) = pre.flatMap blockTexts ++ collectLoop rest := by
  induction pre with
  | nil => simp
  | cons n pre ih =>
    have hn : isStopping n = false := h n (by simp)
    have ih2 := ih (fun m hm => h m (by simp [hm]))
    simp only [List.cons_append, collectLoop, hn, Bool.false_eq_true, if_false,
      List.flatMap_cons, List.append_assoc]
    exact congrArg (fun l => blockTexts n ++ l) ih2

/-- The sibling walk stops at a boundary-marker element. -/
theorem collectLoop_stop (m : Node) (post : List Node) (hm : isStopping m = true) :
    collectLoop (m :: post) = [] := by
  simp [collectLoop, hm]

/-- The key-probing loop cannot raise when every probed key is absent or
string-valued. -/
theorem probeList_ok_of_strings (o : List (String × Json)) :
    ∀ ks, stringValuedAt o ks = true → ∃ r, probeList o ks = .ok r := by
  intro ks
  induction ks with
  | nil => intro h; exact ⟨none, rfl⟩
  | cons k ks ih =>
    intro h
    unfold stringValuedAt at h
    rw [Bool.and_eq_true] at h
    obtain ⟨h1, h2⟩ := h
    unfold probeList
    cases hl : jlookup o k with
    | none => exact ih h2
    | some v =>
      rw [hl] at h1
      cases v with
      | jstr sv =>
        by_cases hp : containsPdfCI sv = true
        · exact ⟨some sv, by simp [hp]⟩
        · rw [Bool.not_eq_true] at hp
          obtain ⟨r, hr⟩ := ih h2
          exact ⟨r, by simp [hp, hr]⟩
      | jnull => exact Bool.noConfusion h1
      | jbool b => exact Bool.noConfusion h1
      | jnum raw => exact Bool.noConfusion h1
      | jarr es => exact Bool.noConfusion h1
      | jobj fs => exact Bool.noConfusion h1

/-- Updating one key leaves its binding retrievable. -/
theorem dlookup_dinsert_self (k v : String) (d : Row) :
    dlookup (dinsert k v d) k = some v := by
  induction d with
  | nil => simp [dinsert, dlookup]
  | cons p rest ih =>
    obtain ⟨k2, v2⟩ := p
    by_cases h : k2 = k
    · simp [dinsert, dlookup, h]
    · simp [dinsert, dlookup, h, ih]

/-- Updating one key does not change any other key. -/
theorem dlookup_dinsert_ne (k k2 v : String) (d : Row) (h : k2 ≠ k) :
    dlookup (dinsert k v d) k2 = dlookup d k2 := by
  have hne : ¬ k = k2 := fun hh => h hh.symm
  induction d with
  | nil => simp [dinsert, dlookup, hne]
  | cons p rest ih =>
    obtain ⟨k3, v3⟩ := p
    by_cases h3 : k3 = k
    · simp [dinsert, dlookup, h3, hne]
    · by_cases h32 : k3 = k2
      · simp [dinsert, dlookup, h3, h32, h]
      · simp [dinsert, dlookup, h3, h32, h, ih]

/-! ## Claim C1 -/

/-- Counterexample to claim C1: with a discovered PDF attachment whose two
text-layer extractions find nothing and whose OCR stage runs and produces
the empty string, the resolver does not return the OCR-derived empty
string; the HTML fallback stage runs and its text is returned. -/
theorem ocrEmptyNotAuthoritative_cex :
    wdOcrEmpty.ocrPages = .ok [""] ∧
      pyStrip (String.intercalate ("\n\n") [""]) = "" ∧
      extract_response_text_preferring_pdf pgPdfHtml baseHost wdOcrEmpty =
        .ok ("Fallback html text") ∧
      extract_response_text_preferring_pdf pgPdfHtml baseHost wdOcrEmpty ≠ .ok ("") :=
  ⟨rfl, by decide, by decide, by decide⟩

/-- Claim C1 (corrected): once the OCR stage has run, its result (the
per-page outputs joined with a blank line, stripped) is returned by the
resolver when it is non-empty; when it is the empty string the resolver
does not stop but falls back to HTML extraction. -/
theorem ocr_result_kept_only_when_nonempty (page : Node) (base u : String)
    (w : PdfFetchWorld) (ps : List String)
    (hfind : find_first_pdf_url page base = .ok (some u))
    (hhttp : w.httpOk = true)
    (h1 : stage1Result w = none) (h2 : stage2Result w = none)
    (hocr : w.ocrPages = .ok ps) :
    extract_response_text_preferring_pdf page base w =
      .ok (if pyStrip (String.intercalate ("\n\n") ps) = "" then htmlFallback page
        else pyStrip (String.intercalate ("\n\n") ps)) := by
  unfold extract_response_text_preferring_pdf
  rw [hfind]
  unfold download_pdf_text
  rw [hhttp, h1, h2, hocr]
  by_cases hc : pyStrip (String.intercalate ("\n\n") ps) = ""
  · simp [hc]
  · simp [hc]

/-- Witness for C1: the corrected theorem evaluated on a concrete page with
an attachment whose OCR output is one empty page. -/
theorem ocr_result_kept_only_when_nonempty_witness :
    extract_response_text_preferring_pdf pgPdfHtml baseHost wdOcrEmpty =
      .ok (if pyStrip (String.intercalate ("\n\n") [""]) = "" then htmlFallback pgPdfHtml
        else pyStrip (String.intercalate ("\n\n") [""])) :=
  ocr_result_kept_only_when_nonempty pgPdfHtml baseHost ("https://host/scan.pdf")
    wdOcrEmpty [""] (by decide) rfl rfl rfl rfl

/-! ## Claim C2 -/

/-- Counterexample to claim C2: on a page where a generic `.pdf` anchor
precedes the "Download attachment" button anchor, discovery returns the
generic anchor's URL, not the button's. -/
theorem downloadAttachmentNotPreferred_cex :
    find_first_pdf_url pgTwoAnchors baseHost = .ok (some ("https://host/a.pdf")) ∧
      find_first_pdf_url pgTwoAnchors baseHost ≠ .ok (some ("https://host/b.pdf")) :=
  ⟨by decide, by decide⟩

/-- Claim C2 (corrected): discovery returns the URL of the first
anchor/link in document order whose stripped href contains `.pdf`
case-insensitively; a "download attachment" button anchor gets no
preference, so with a generic `.pdf` anchor first, the generic anchor
wins. -/
theorem discovery_takes_first_anchor_in_document_order (base h1 h2 : String)
    (hc : containsPdfCI (pyStrip h1) = true) :
    find_first_pdf_url (twoAnchorPage h1 h2) base =
      .ok (some (urljoin base (pyStrip h1))) :=
  find_first_pdf_url_of_scan (twoAnchorPage h1 h2) base (pyStrip h1)
    (scanHrefs_eq_some (twoAnchorPage h1 h2) [] [pyStrip h2] (pyStrip h1) rfl
      (by intro x hx; simp at hx) hc)

/-- Witness for C2: the corrected theorem evaluated with a generic `a.pdf`
anchor preceding a `b.pdf` download button. -/
theorem discovery_takes_first_anchor_in_document_order_witness :
    find_first_pdf_url (twoAnchorPage ("a.pdf") ("b.pdf")) ("https://host/") =
      .ok (some (urljoin ("https://host/") (pyStrip ("a.pdf")))) :=
  discovery_takes_first_anchor_in_document_order ("https://host/") ("a.pdf") ("b.pdf")
    (by decide)

/-! ## Claim C3 -/

/-- Counterexample to claim C3: with a discovered attachment URL whose HTTP
download fails, the resolver does not fall back to HTML extraction and does
not return a string; the transport error propagates out of it. -/
theorem httpFailureNoHtmlFallback_cex :
    extract_response_text_preferring_pdf pgPdfHtml baseHost wdHttpFail =
      .error PyErr.httpError := by
  decide

/-- Claim C3 (corrected): when an attachment URL was discovered but its
HTTP download fails before any extraction ran, the failure propagates out
of the resolver (the per-row caller catches it); the HTML fallback runs
only when no attachment URL was found or when extraction produced empty
text. -/
theorem attachment_download_failure_propagates (page : Node) (base u : String)
    (w : PdfFetchWorld)
    (hfind : find_first_pdf_url page base = .ok (some u))
    (hhttp : w.httpOk = false) :
    extract_response_text_preferring_pdf page base w = .error PyErr.httpError := by
  unfold extract_response_text_preferring_pdf
  rw [hfind]
  unfold download_pdf_text
  rw [hhttp]
  simp

/-- Witness for C3: the corrected theorem evaluated on a page with an
attachment and a failing download. -/
theorem attachment_download_failure_propagates_witness :
    extract_response_text_preferring_pdf pgPdfHtml baseHost wdHttpFail =
      .error PyErr.httpError :=
  attachment_download_failure_propagates pgPdfHtml baseHost ("https://host/scan.pdf")
    wdHttpFail (by decide) rfl

/-! ## Claim C4 -/

/-- Counterexample to claim C4: when the two text-layer extractions and the
OCR call all raise, the OCR exception escapes `download_pdf_text` instead
of being caught and treated as empty text. -/
theorem ocrExceptionEscapes_cex :
    download_pdf_text wdAllErr = .error PyErr.ocrError := by
  decide

/-- Claim C4 (corrected): an exception thrown by either text-layout
extraction call is caught locally and treated as having produced empty
text, so the next stage runs — in particular the OCR stage runs and its
result is returned; but an exception thrown by the OCR call itself is not
caught and escapes `download_pdf_text`. -/
theorem layout_exceptions_swallowed_ocr_exception_escapes (w : PdfFetchWorld)
    (hhttp : w.httpOk = true)
    (hminer : w.pdfminerResult = .error ())
    (hpypdf : w.pypdfPages = .error ()) :
    (∀ ps, w.ocrPages = .ok ps →
      download_pdf_text w = .ok (pyStrip (String.intercalate ("\n\n") ps))) ∧
    (w.ocrPages = .error () → download_pdf_text w = .error PyErr.ocrError) := by
  constructor
  · intro ps hocr
    unfold download_pdf_text
    rw [hhttp]
    simp [stage1Result, stage2Result, hminer, hpypdf, hocr]
  · intro hocr
    unfold download_pdf_text
    rw [hhttp]
    simp [stage1Result, stage2Result, hminer, hpypdf, hocr]

/-- Witness for C4: the corrected theorem evaluated on a world whose OCR
succeeds and on a world whose OCR raises. -/
theorem layout_exceptions_swallowed_ocr_exception_escapes_witness :
    download_pdf_text wdOcrText =
      .ok (pyStrip (String.intercalate ("\n\n") ["page one", "page two"])) ∧
    download_pdf_text wdAllErr = .error PyErr.ocrError :=
  ⟨(layout_exceptions_swallowed_ocr_exception_escapes wdOcrText rfl rfl rfl).1
      ["page one", "page two"] rfl,
    (layout_exceptions_swallowed_ocr_exception_escapes wdAllErr rfl rfl rfl).2 rfl⟩

/-! ## Claim C5 -/

/-- Claim C5 (confirmed): the resolver does not raise past its own boundary
when no attachment is found or when OCR runs and yields an empty result; in
both situations it returns a string (possibly empty). -/
theorem resolver_returns_string_on_no_attachment_or_empty_ocr (page : Node)
    (base : String) (w : PdfFetchWorld) :
    (find_first_pdf_url page base = .ok none →
      ∃ s, extract_response_text_preferring_pdf page base w = .ok s) ∧
    (∀ u ps, find_first_pdf_url page base = .ok (some u) → w.httpOk = true →
      stage1Result w = none → stage2Result w = none → w.ocrPages = .ok ps →
      pyStrip (String.intercalate ("\n\n") ps) = "" →
      ∃ s, extract_response_text_preferring_pdf page base w = .ok s) := by
  constructor
  · intro hf
    refine ⟨htmlFallback page, ?_⟩
    unfold extract_response_text_preferring_pdf
    rw [hf]
  · intro u ps hf hhttp h1 h2 hocr hemp
    refine ⟨htmlFallback page, ?_⟩
    unfold extract_response_text_preferring_pdf
    rw [hf]
    unfold download_pdf_text
    rw [hhttp, h1, h2, hocr]
    simp [hemp]

/-- Witness for C5: the theorem evaluated on a page with no attachment and
on a page whose attachment's OCR output is empty. -/
theorem resolver_returns_string_on_no_attachment_or_empty_ocr_witness :
    (∃ s, extract_response_text_preferring_pdf pgMarker baseHost wdPlain = .ok s) ∧
    (∃ s, extract_response_text_preferring_pdf pgPdfHtml baseHost wdOcrEmpty = .ok s) :=
  ⟨(resolver_returns_string_on_no_attachment_or_empty_ocr pgMarker baseHost wdPlain).1
      (by decide),
    (resolver_returns_string_on_no_attachment_or_empty_ocr pgPdfHtml baseHost wdOcrEmpty).2
      ("https://host/scan.pdf") [""] (by decide) rfl rfl rfl rfl (by decide)⟩

/-! ## Claim C6 -/

/-- Counterexample to claim C6: an href whose path does not end in `.pdf`
but contains `.pdf` in the middle (before a query suffix) is accepted by
attachment discovery. -/
theorem acceptsQueryPdfHref_cex :
    find_first_pdf_url pgQueryPdf baseHost =
        .ok (some ("https://host/doc.pdf?download=1")) ∧
      endsWithCI ("doc.pdf?download=1") (".pdf") = false :=
  ⟨by decide, by decide⟩

/-- Claim C6 (corrected): the link scan accepts an anchor or link element
whenever its stripped href contains `.pdf` case-insensitively anywhere —
also in the middle of the path or in the query, not only as the path's
final extension — and discovery returns the first accepted href resolved
against the base URL. -/
theorem anchor_accepted_when_href_contains_pdf (page : Node) (base : String)
    (pre post : List String) (h : String)
    (hsplit : hrefsOf page = pre ++ h :: post)
    (hpre : ∀ h2 ∈ pre, containsPdfCI h2 = false)
    (hh : containsPdfCI h = true) :
    find_first_pdf_url page base = .ok (some (urljoin base h)) :=
  find_first_pdf_url_of_scan page base h
    (scanHrefs_eq_some page pre post h hsplit hpre hh)

/-- Witness for C6: the theorem evaluated on the page whose only anchor has
`.pdf` in the middle of its href. -/
theorem anchor_accepted_when_href_contains_pdf_witness :
    find_first_pdf_url pgQueryPdf baseHost =
      .ok (some (urljoin baseHost ("doc.pdf?download=1"))) :=
  anchor_accepted_when_href_contains_pdf pgQueryPdf baseHost [] []
    ("doc.pdf?download=1") rfl (by intro x hx; simp at hx) (by decide)

/-! ## Claim C7 -/

/-- Claim C7 (confirmed): on a page with no attachment, no semantic
container, and a first heading followed by siblings and then a
boundary-marker sibling, the resolver returns exactly the paragraph-like
text of the siblings preceding the marker, in document order, and nothing
at or after the marker. -/
theorem resolver_stops_at_boundary_marker (page : Node) (base : String)
    (w : PdfFetchWorld) (pre post : List Node) (m : Node)
    (hfind : find_first_pdf_url page base = .ok none)
    (hblocks : htmlBlockTexts page = [])
    (htail : findH1Tail page = some (pre ++ m :: post))
    (hpre : ∀ n ∈ pre, isStopping n = false)
    (hm : isStopping m = true) :
    extract_response_text_preferring_pdf page base w =
      .ok (pyStrip (String.intercalate ("\n\n") (pre.flatMap blockTexts))) := by
  unfold extract_response_text_preferring_pdf
  rw [hfind]
  simp only [htmlFallback, hblocks, htail]
  rw [collectLoop_append pre (m :: post) hpre, collectLoop_stop m post hm,
    List.append_nil]

/-- Witness for C7: the theorem evaluated on the concrete marker page; the
paragraph after the Timeline marker is not part of the result. -/
theorem resolver_stops_at_boundary_marker_witness :
    extract_response_text_preferring_pdf pgMarker baseHost wdPlain =
      .ok (pyStrip (String.intercalate ("\n\n")
        (List.flatMap
          [Node.element ("div") [] [Node.element ("p") [] [Node.text ("Para one")]]]
          blockTexts))) :=
  resolver_stops_at_boundary_marker pgMarker baseHost wdPlain
    [Node.element ("div") [] [Node.element ("p") [] [Node.text ("Para one")]]]
    [Node.element ("div") [] [Node.element ("p") [] [Node.text ("After")]]]
    (Node.element ("div") [] [Node.text ("Timeline")])
    (by decide) rfl rfl (by decide) (by decide)

/-! ## Claim C8 -/

/-- The resolver propagates a discovery exception. -/
theorem resolver_eq_of_find_error (page : Node) (base : String) (w : PdfFetchWorld)
    (e : PyErr) (hf : find_first_pdf_url page base = .error e) :
    extract_response_text_preferring_pdf page base w = .error e := by
  unfold extract_response_text_preferring_pdf
  rw [hf]

/-- The resolver takes the HTML fallback when discovery finds nothing. -/
theorem resolver_eq_of_find_none (page : Node) (base : String) (w : PdfFetchWorld)
    (hf : find_first_pdf_url page base = .ok none) :
    extract_response_text_preferring_pdf page base w = .ok (htmlFallback page) := by
  unfold extract_response_text_preferring_pdf
  rw [hf]

/-- The resolver propagates a download exception. -/
theorem resolver_eq_of_download_error (page : Node) (base u : String)
    (w : PdfFetchWorld) (e : PyErr)
    (hf : find_first_pdf_url page base = .ok (some u))
    (hd : download_pdf_text w = .error e) :
    extract_response_text_preferring_pdf page base w = .error e := by
  unfold extract_response_text_preferring_pdf
  rw [hf, hd]

/-- The resolver keeps a non-empty download result and otherwise falls back
to HTML extraction. -/
theorem resolver_eq_of_download_ok (page : Node) (base u t : String)
    (w : PdfFetchWorld)
    (hf : find_first_pdf_url page base = .ok (some u))
    (hd : download_pdf_text w = .ok t) :
    extract_response_text_preferring_pdf page base w =
      if t = "" then .ok (htmlFallback page) else .ok t := by
  unfold extract_response_text_preferring_pdf
  rw [hf, hd]

/-- A successful `download_pdf_text` result comes from exactly one of the
three binary-document stages. -/
theorem download_pdf_text_cases (w : PdfFetchWorld) (t : String)
    (h : download_pdf_text w = .ok t) :
    stage1Result w = some t ∨ stage2Result w = some t ∨
      (∃ ps, w.ocrPages = .ok ps ∧ t = pyStrip (String.intercalate ("\n\n") ps)) := by
  unfold download_pdf_text at h
  cases hw : w.httpOk with
  | false => rw [hw] at h; simp at h
  | true =>
    rw [hw] at h
    simp only [Bool.true_eq_false, if_false] at h
    cases h1 : stage1Result w with
    | some t1 =>
      rw [h1] at h
      injection h with h
      exact Or.inl (by rw [h])
    | none =>
      rw [h1] at h
      cases h2 : stage2Result w with
      | some t2 =>
        rw [h2] at h
        injection h with h
        exact Or.inr (Or.inl (by rw [h]))
      | none =>
        rw [h2] at h
        cases hocr : w.ocrPages with
        | ok ps =>
          rw [hocr] at h
          injection h with h
          exact Or.inr (Or.inr ⟨ps, rfl, h.symm⟩)
        | error e =>
          rw [hocr] at h
          cases h

/-- Claim C8 (confirmed): the string the resolver returns is produced by a
single extraction path — a PDF text-layer stage, the PDF OCR stage, or the
HTML fallback — never by merging text from two paths. -/
theorem resolver_uses_single_extraction_path (page : Node) (base : String)
    (w : PdfFetchWorld) (s : String)
    (h : extract_response_text_preferring_pdf page base w = .ok s) :
    stage1Result w = some s ∨ stage2Result w = some s ∨
      (∃ ps, w.ocrPages = .ok ps ∧ s = pyStrip (String.intercalate ("\n\n") ps)) ∨
      s = htmlFallback page := by
  cases hf : find_first_pdf_url page base with
  | error e =>
    rw [resolver_eq_of_find_error page base w e hf] at h
    simp at h
  | ok o =>
    cases o with
    | none =>
      rw [resolver_eq_of_find_none page base w hf] at h
      injection h with h
      exact Or.inr (Or.inr (Or.inr h.symm))
    | some u =>
      cases hd : download_pdf_text w with
      | error e =>
        rw [resolver_eq_of_download_error page base u w e hf hd] at h
        simp at h
      | ok t =>
        rw [resolver_eq_of_download_ok page base u t w hf hd] at h
        by_cases ht : t = ""
        · rw [if_pos ht] at h
          injection h with h
          exact Or.inr (Or.inr (Or.inr h.symm))
        · rw [if_neg ht] at h
          injection h with h
          rcases download_pdf_text_cases w t hd with h1 | h2 | h3
          · exact Or.inl (h ▸ h1)
          · exact Or.inr (Or.inl (h ▸ h2))
          · exact Or.inr (Or.inr (Or.inl ⟨h3.choose, h3.choose_spec.1,
              h ▸ h3.choose_spec.2⟩))

/-- Witness for C8: the theorem evaluated on a concrete run that resolved
through the HTML path. -/
theorem resolver_uses_single_extraction_path_witness :
    stage1Result wdPlain = some ("Para one") ∨
      stage2Result wdPlain = some ("Para one") ∨
      (∃ ps, wdPlain.ocrPages = .ok ps ∧
        "Para one" = pyStrip (String.intercalate ("\n\n") ps)) ∨
      "Para one" = htmlFallback pgMarker :=
  resolver_uses_single_extraction_path pgMarker baseHost wdPlain ("Para one") (by decide)

/-! ## Claim C9 -/

/-- Counterexample to claim C9: a page whose page-data script holds the
valid JSON value `0` — which is not an object — makes the `d.get` probing
raise an `AttributeError` that escapes `find_first_pdf_url`, so discovery
is not total over all markup. -/
theorem discoveryRaisesOnNonObjectJson_cex :
    find_first_pdf_url pgBadJson baseHost = .error PyErr.attrError := by
  decide

/-- Claim C9 (corrected): attachment discovery returns a result without
raising whenever the effective page data is a JSON object whose probed
keys hold strings where present — in particular when the script element is
absent or its content is malformed JSON, cases which are swallowed and
leave the empty object; but when the content parses to a valid non-object
JSON value, or to an object with a non-string probed value, the key
probing raises and the exception escapes discovery. -/
theorem discovery_total_when_pagedata_wellformed (page : Node) (base : String)
    (h : probedKeysAllStrings (effectiveJson page) = true) :
    ∃ r, find_first_pdf_url page base = .ok r := by
  unfold find_first_pdf_url
  cases hs : scanHrefs page with
  | some v => exact ⟨some (urljoin base v), rfl⟩
  | none =>
    unfold probedKeysAllStrings at h
    cases hd : effectiveJson page with
    | jobj o =>
      rw [hd] at h
      obtain ⟨r, hr⟩ := probeList_ok_of_strings o probeKeyList h
      have hp : probeKeys (Json.jobj o) = .ok r := hr
      rw [hp]
      cases r with
      | some v => exact ⟨some (urljoin base v), rfl⟩
      | none => exact ⟨(regexSearchPdf (render page).data).map (urljoin base), rfl⟩
    | jnull => rw [hd] at h; exact Bool.noConfusion h
    | jbool b => rw [hd] at h; exact Bool.noConfusion h
    | jnum raw => rw [hd] at h; exact Bool.noConfusion h
    | jstr sv => rw [hd] at h; exact Bool.noConfusion h
    | jarr es => rw [hd] at h; exact Bool.noConfusion h

/-- Witness for C9: the theorem evaluated on a page with no page-data
script at all. -/
theorem discovery_total_when_pagedata_wellformed_witness :
    ∃ r, find_first_pdf_url pgMarker baseHost = .ok r :=
  discovery_total_when_pagedata_wellformed pgMarker baseHost (by decide)

/-! ## Claim C10 -/

/-- Claim C10 (confirmed): for a row with a non-empty URL, a successful
`enrich_row_from_url` returns the input row with exactly the keys
`story_text` and `response_text` set (added, or overwritten when already
present) to stripped string values; every other key keeps its original
value. -/
theorem enrich_preserves_row_and_adds_texts (row : Row) (ucol : String)
    (w : ScrapeWorld) (out : Option Row)
    (hurl : pyStrip ((dlookup row ucol).getD ("")) ≠ "")
    (hret : enrich_row_from_url row ucol w = .ok out) :
    ∃ r st rt, out = some r ∧
      r = dinsert ("response_text") (pyStrip rt)
        (dinsert ("story_text") (pyStrip st) row) ∧
      (∀ k, k ≠ "story_text" → k ≠ "response_text" → dlookup r k = dlookup row k) ∧
      dlookup r ("story_text") = some (pyStrip st) ∧
      dlookup r ("response_text") = some (pyStrip rt) ∧
      (∀ k, (dlookup r k).isSome = true ↔
        ((dlookup row k).isSome = true ∨ k = "story_text" ∨ k = "response_text")) := by
  unfold enrich_row_from_url at hret
  rw [if_neg hurl] at hret
  cases hres : extract_response_text_preferring_pdf w.respPage
      (pyStrip ((dlookup row ucol).getD (""))) w.pdf with
  | error e => rw [hres] at hret; simp at hret
  | ok rtv =>
    rw [hres] at hret
    injection hret with hret
    refine ⟨dinsert ("response_text") (pyStrip rtv)
        (dinsert ("story_text") (pyStrip (match find_parent_story_url_from_html
          (pyStrip ((dlookup row ucol).getD (""))) w.respPage with
          | some _ => extract_story_text w.storyPage
          | none => "")) row),
      (match find_parent_story_url_from_html
        (pyStrip ((dlookup row ucol).getD (""))) w.respPage with
        | some _ => extract_story_text w.storyPage
        | none => ""), rtv, hret.symm, rfl, ?_, ?_, ?_, ?_⟩
    · intro k h1 h2
      rw [dlookup_dinsert_ne ("response_text") k _ _ h2,
        dlookup_dinsert_ne ("story_text") k _ _ h1]
    · rw [dlookup_dinsert_ne ("response_text") ("story_text") _ _ (by decide),
        dlookup_dinsert_self]
    · rw [dlookup_dinsert_self]
    · intro k
      by_cases hk2 : k = "response_text"
      · subst hk2
        rw [dlookup_dinsert_self]
        simp
      · by_cases hk1 : k = "story_text"
        · subst hk1
          rw [dlookup_dinsert_ne ("response_text") ("story_text") _ _ (by decide),
            dlookup_dinsert_self]
          simp
        · rw [dlookup_dinsert_ne ("response_text") k _ _ hk2,
            dlookup_dinsert_ne ("story_text") k _ _ hk1]
          simp [hk1, hk2]

/-- Witness for C10: the theorem evaluated on a concrete row and world. -/
theorem enrich_preserves_row_and_adds_texts_witness :
    ∃ r st rt, (some [("URL", " https://host/x/y "), ("company", "ACME"),
        ("story_text", "A story"), ("response_text", "")] : Option Row) = some r ∧
      r = dinsert ("response_text") (pyStrip rt)
        (dinsert ("story_text") (pyStrip st) rowOne) ∧
      (∀ k, k ≠ "story_text" → k ≠ "response_text" → dlookup r k = dlookup rowOne k) ∧
      dlookup r ("story_text") = some (pyStrip st) ∧
      dlookup r ("response_text") = some (pyStrip rt) ∧
      (∀ k, (dlookup r k).isSome = true ↔
        ((dlookup rowOne k).isSome = true ∨ k = "story_text" ∨ k = "response_text")) :=
  enrich_preserves_row_and_adds_texts rowOne ("URL") wdRow
    (some [("URL", " https://host/x/y "), ("company", "ACME"),
      ("story_text", "A story"), ("response_text", "")])
    (by decide) (by decide)
